import Mathlib

/-!
Verification development for the Prospector scanner status-screen module
(`src/boards/shields/prospector_scanner/src/custom_status_screen.c`).

The C module is shallowly embedded: each global the claims touch becomes a
field of an explicit state structure, each C function a Lean function on
that state.  Machine integers are modelled as `Int`/`Nat`; the LCG seed is
kept reduced modulo `2 ^ 32` exactly where the C `uint32_t` arithmetic
wraps.  C integer division (truncation toward zero) is `Int.tdiv`.
-/

/- ========== Screen state machine (enum screen_state) ========== -/

/-- `enum screen_state` from the C source. -/
inductive Screen where
  | main
  | displaySettings
  | systemSettings
  | keyboardSelect
  | pongWars
deriving DecidableEq, Repr

/-- `enum swipe_direction` without the NONE sentinel; the empty pending cell
is modelled as `Option Dir = none`. -/
inductive Dir where
  | up
  | down
  | left
  | right
deriving DecidableEq, Repr

/-- `CHANNEL_MAX` (10): channels 0-9 are specific, 10 = All. -/
def CHANNEL_MAX : Nat := 10

/-- `ks_channel_increment`: wraps the runtime channel from 10 back to 0. -/
def ks_channel_increment (ch : Nat) : Nat :=
  if ch < CHANNEL_MAX then ch + 1 else 0

/-- `ks_channel_decrement`: wraps the runtime channel from 0 up to 10. -/
def ks_channel_decrement (ch : Nat) : Nat :=
  if ch > 0 then ch - 1 else CHANNEL_MAX

/-- `ks_channel_change` clamps a channel above `CHANNEL_MAX` to 0 before
storing it. -/
def ks_channel_change (ch : Nat) : Nat :=
  if ch > CHANNEL_MAX then 0 else ch

/-- The `switch (dir)` body of `swipe_process_timer_cb`: given the pending
direction, the current screen and the runtime channel, produce the next
screen and channel.  Every branch mirrors one `if (current_screen == ...)`
arm of the C switch; anything that falls through leaves the state alone. -/
def swipe_transition (s : Screen) (d : Dir) (ch : Nat) : Screen × Nat :=
  match d with
  | Dir.down =>
      if s = Screen.main then (Screen.displaySettings, ch)
      else if s = Screen.keyboardSelect then (Screen.main, ch)
      else (s, ch)
  | Dir.up =>
      if s = Screen.displaySettings then (Screen.main, ch)
      else if s = Screen.main then (Screen.keyboardSelect, ch)
      else (s, ch)
  | Dir.left =>
      if s = Screen.main then (Screen.pongWars, ch)
      else if s = Screen.systemSettings then (Screen.main, ch)
      else if s = Screen.keyboardSelect then (s, ks_channel_change (ks_channel_decrement ch))
      else (s, ch)
  | Dir.right =>
      if s = Screen.pongWars then (Screen.main, ch)
      else if s = Screen.main then (Screen.systemSettings, ch)
      else if s = Screen.keyboardSelect then (s, ks_channel_change (ks_channel_increment ch))
      else (s, ch)

/- ========== Gesture mailbox (pending_swipe) ========== -/

/-- The globals read and written by `swipe_gesture_listener` and
`swipe_process_timer_cb`. -/
structure SwState where
  pending : Option Dir
  uiActive : Bool
  transitionBusy : Bool
  screen : Screen
  channel : Nat
deriving DecidableEq, Repr

/-- `swipe_gesture_listener` (ISR context): writes the pending cell only
when it is empty, otherwise the new gesture is discarded. -/
def swipe_gesture_listener (d : Dir) (s : SwState) : SwState :=
  if s.pending ≠ none then s
  else { s with pending := some d }

/-- `swipe_process_timer_cb` (one consumer tick): read the pending cell;
if empty, return; otherwise clear it first, then drop the gesture if a UI
interaction or a transition is in progress, else run the transition switch
under the busy flag (set at the start, cleared at the end). -/
def swipe_process_timer_cb (s : SwState) : SwState :=
  match s.pending with
  | none => s
  | some d =>
      let s1 := { s with pending := none }
      if s1.uiActive then s1
      else if s1.transitionBusy then s1
      else
        let r := swipe_transition s1.screen d s1.channel
        { s1 with screen := r.1, channel := r.2, transitionBusy := false }

/- ========== Layer dial ("slide") mode ========== -/

/-- `SLIDE_LARGE_ZONE_START`. -/
def SLIDE_LARGE_ZONE_START : Int := 2

/-- `SLIDE_LARGE_ZONE_END`. -/
def SLIDE_LARGE_ZONE_END : Int := 6

/-- `SLIDE_VISIBLE_COUNT`. -/
def SLIDE_VISIBLE_COUNT : Nat := 9

/-- LVGL opacity constants used by the slide widgets. -/
def LV_OPA_TRANSP : Nat := 0

def LV_OPA_COVER : Nat := 255

def LV_OPA_20 : Nat := 51

def LV_OPA_40 : Nat := 102

def LV_OPA_70 : Nat := 178

/-- `get_slide_slot_opa`: gradient opacity for an inactive slot. -/
def get_slide_slot_opa (slot : Nat) : Nat :=
  if slot = 0 ∨ slot = 8 then LV_OPA_20
  else if slot = 1 ∨ slot = 7 then LV_OPA_40
  else LV_OPA_70

/-- The window-start computation inside `update_layer_slide_display`:
`current_slot = layer - window_start`; scroll only when the slot leaves the
large zone [2,6], to `layer - 2` (left) or `layer - 6` (right). -/
def slide_new_window_start (layer ws : Int) : Int :=
  if layer - ws < SLIDE_LARGE_ZONE_START then layer - SLIDE_LARGE_ZONE_START
  else if layer - ws > SLIDE_LARGE_ZONE_END then layer - SLIDE_LARGE_ZONE_END
  else ws

/-- The layer-dial state carried across calls: the window start
(`layer_slide_window_start`) and the auto-expanding maximum
(`ds_layer_slide_max`). -/
structure SlideState where
  windowStart : Int
  slideMax : Int
deriving DecidableEq, Repr

/-- `update_layer_slide_display`, state part: auto-expand the max layer,
then recompute the window start. -/
def update_layer_slide_display (layer : Int) (s : SlideState) : SlideState :=
  { slideMax := if layer ≥ s.slideMax then layer + 1 else s.slideMax,
    windowStart := slide_new_window_start layer s.windowStart }

/-- Label text of slot `i` in the update loop: the layer number, or the
empty string when the slot's layer number is negative. -/
def slide_slot_text (num : Int) : String :=
  if num ≥ 0 then toString num else ""

/-- Text opacity of slot `i` in the update loop: transparent for a negative
layer number, full for the active layer, gradient otherwise. -/
def slide_slot_opa_of (num layer : Int) (slot : Nat) : Nat :=
  if num < 0 then LV_OPA_TRANSP
  else if num = layer then LV_OPA_COVER
  else get_slide_slot_opa slot

/-- `create_layer_slide_widgets` sets the initial window start to
`active_layer - SLIDE_LARGE_ZONE_START` (never clamped to 0). -/
def create_layer_slide_window_start (activeLayer : Int) : Int :=
  activeLayer - SLIDE_LARGE_ZONE_START

/- ========== Battery layout (reposition_battery_widgets) ========== -/

/-- `MAX_KB_BATTERIES`. -/
def MAX_KB_BATTERIES : Nat := 4

/-- `kb_x_offsets_1` .. `kb_x_offsets_4` from `reposition_battery_widgets`. -/
def kb_x_offsets_1 : List Int := [0, 0, 0, 0]

def kb_x_offsets_2 : List Int := [-70, 70, 0, 0]

def kb_x_offsets_3 : List Int := [-90, 0, 90, 0]

def kb_x_offsets_4 : List Int := [-100, -35, 35, 100]

/-- `battery_names_2` / `_3` / `_4`; `none` models a NULL entry. -/
def battery_names_2 : List (Option String) := [some "L", some "R", none, none]

def battery_names_3 : List (Option String) := [some "L", some "R", some "Aux", none]

def battery_names_4 : List (Option String) := [some "L", some "R", some "A1", some "A2"]

/-- The clamp at the top of `reposition_battery_widgets`. -/
def battery_clamp_count (count : Int) : Int :=
  if count < 1 then 1
  else if count > (MAX_KB_BATTERIES : Int) then (MAX_KB_BATTERIES : Int)
  else count

/-- The `switch (count)` bar-width selection of `reposition_battery_widgets`
(after clamping). -/
def reposition_bar_width (count : Int) : Int :=
  let c := battery_clamp_count count
  if c = 1 then 165
  else if c = 2 then 110
  else if c = 3 then 70
  else 52

/-- The `switch (count)` x-offset table selection. -/
def reposition_x_offsets (count : Int) : List Int :=
  let c := battery_clamp_count count
  if c = 1 then kb_x_offsets_1
  else if c = 2 then kb_x_offsets_2
  else if c = 3 then kb_x_offsets_3
  else kb_x_offsets_4

/-- The name-table selection: `names` stays NULL for count 1. -/
def reposition_names (count : Int) : List (Option String) :=
  let c := battery_clamp_count count
  if c = 2 then battery_names_2
  else if c = 3 then battery_names_3
  else if c = 4 then battery_names_4
  else [none, none, none, none]

/-- Text written to name label `i`: `names[i]` when the slot is visible
(`i < count`) and the entry is non-NULL, else the empty string. -/
def reposition_slot_name (count : Int) (i : Nat) : String :=
  let c := battery_clamp_count count
  if (i : Int) < c then ((reposition_names count).getD i none).getD ""
  else ""

/-- The state `display_update_keyboard_battery_4` reads and writes:
`battery_values` and `active_battery_count`. -/
structure BatteryState where
  values : List Int
  activeCount : Int
deriving DecidableEq, Repr

/-- The active-count computation of `display_update_keyboard_battery_4`:
the number of strictly positive values. -/
def battery_active_count (b0 b1 b2 b3 : Int) : Int :=
  (([b0, b1, b2, b3].filter (fun v => decide (0 < v))).length : Nat)

/-- `display_update_keyboard_battery_4`, state part.  Returns the new state
together with `some c` exactly when `reposition_battery_widgets c` was
invoked: the count must differ from the stored one AND be positive
(`if (count > 0) reposition_battery_widgets(count);`). -/
def display_update_keyboard_battery_4 (b0 b1 b2 b3 : Int) (s : BatteryState) :
    BatteryState × Option Int :=
  let values := [b0, b1, b2, b3]
  let count := battery_active_count b0 b1 b2 b3
  if count ≠ s.activeCount then
    ({ values := values, activeCount := count },
     if count > 0 then some count else none)
  else
    ({ values := values, activeCount := s.activeCount }, none)

/- ========== Signal-rate formatting ========== -/

/-- The rate branch of `pending_update_timer_cb`, which formats the x100
integer payload `sig_rate_x100` directly: a negative payload gives the
sentinel, otherwise whole part `x / 100` and one fractional digit
`(x % 100) / 10` (C integer division on non-negative operands). -/
def format_rate_x100 (x : Int) : String :=
  if x < 0 then "-.--Hz"
  else toString (Int.tdiv x 100) ++ "." ++ toString (Int.tdiv (x % 100) 10) ++ "Hz"

/-- The rate branch of `display_update_signal`, which receives a float.
The float is modelled as `Option ℚ`, `none` standing for NaN (for which
both C comparisons `rate < 0.0f` and `rate > 999.9f` are false while
`rate != rate` is true, so NaN lands in the sentinel branch). -/
def display_update_signal_rate_text (rate : Option ℚ) : String :=
  match rate with
  | none => "-.--Hz"
  | some r =>
      if r < 0 then "-.--Hz"
      else if r > 9999 / 10 then "-.--Hz"
      else
        let ri0 := Int.floor (r * 10 + 5 / 10)
        let ri := if ri0 > 9999 then 9999 else ri0
        toString (Int.tdiv ri 10) ++ "." ++ toString (ri % 10) ++ "Hz"

/- ========== Backlight brightness (set_pwm_brightness) ========== -/

/-- `set_pwm_brightness`: when the device is ready, clamp the logical
percentage below to 1 and pass the INVERTED duty `100 - brightness` to
`led_set_brightness` (the `uint8_t` subtraction wraps modulo 256).
Returns the value handed to the driver, `none` when the device was not
ready and the call was skipped. -/
def set_pwm_brightness (ready : Bool) (brightness : Nat) : Option Nat :=
  if ready = false then none
  else
    let b := if brightness < 1 then 1 else brightness
    some ((((100 : Int) - (b : Int)) % 256).toNat)

/- ========== Layer display entry point (display_update_layer) ========== -/

/-- The cached state of `display_update_layer` that an out-of-range call
could touch. -/
structure LayerState where
  activeLayer : Int
deriving DecidableEq, Repr

/-- `display_update_layer`, guard and cache part: a layer outside 0..255
returns immediately, otherwise the value is cached. -/
def display_update_layer (layer : Int) (s : LayerState) : LayerState :=
  if layer < 0 ∨ layer > 255 then s
  else { s with activeLayer := layer }

/-- Modelled from the spec: the clamping behaviour the spec's
error-handling section prescribes for an out-of-range layer number
("clamped or replaced with a sentinel"), to be compared with
`display_update_layer`. -/
def clamp_layer_spec (layer : Int) : Int :=
  max 0 (min 255 layer)

/- ========== Pong Wars simulation ========== -/

/-- `PW_CELL_SIZE`. -/
def PW_CELL_SIZE : Int := 20

/-- `PW_GRID_W`. -/
def PW_GRID_W : Int := 12

/-- `PW_GRID_H`. -/
def PW_GRID_H : Int := 9

/-- `PW_NUM_CELLS` (108). -/
def PW_NUM_CELLS : Nat := 108

/-- `PW_NUM_BALLS`. -/
def PW_NUM_BALLS : Nat := 2

/-- `PW_BALL_RADIUS`. -/
def PW_BALL_RADIUS : Int := 6

/-- `PW_ARENA_W`. -/
def PW_ARENA_W : Int := 240

/-- `PW_ARENA_H`. -/
def PW_ARENA_H : Int := 180

/-- `pw_color_palettes`: {team1_bg, team2_bg, team1_ball, team2_ball}. -/
def pw_color_palettes : List (Nat × Nat × Nat × Nat) :=
  [(0xFFB5E8, 0xB5DEFF, 0xFF4D6D, 0x2D8CFF),
   (0xFFDEB5, 0xB5FFD9, 0xFF8C42, 0x2ECC71),
   (0xE8B5FF, 0xFFFDB5, 0x9B59B6, 0xF1C40F),
   (0xB5FFE8, 0xFFB5C5, 0x1ABC9C, 0xE74C3C),
   (0xD5B5FF, 0xB5F0FF, 0x8E44AD, 0x3498DB),
   (0xFFE5B5, 0xC5FFB5, 0xE67E22, 0x27AE60)]

/-- `PW_NUM_PALETTES`. -/
def PW_NUM_PALETTES : Nat := pw_color_palettes.length

/-- `struct pw_ball`. -/
structure PwBall where
  x : Int
  y : Int
  dx : Int
  dy : Int
  team : Nat
deriving DecidableEq, Repr

/-- The Pong Wars globals.  `cellObjs`/`ballObjs` record which pre-allocated
LVGL objects exist; the simulation functions rewrite state and colors but
never allocate or free them. -/
structure PwState where
  initialized : Bool
  arena : Bool
  grid : List Nat
  score1 : Int
  score2 : Int
  balls : List PwBall
  seed : Nat
  baseSpeed : Int
  colorTeam1 : Nat
  colorTeam2 : Nat
  colorBall1 : Nat
  colorBall2 : Nat
  cellObjs : List Bool
  ballObjs : List Bool
deriving DecidableEq, Repr

/-- `pw_rand`: LCG step on the `uint32_t` seed, output `(seed >> 16) & 0x7FFF`.
Returns (random value, new seed). -/
def pw_rand (seed : Nat) : Nat × Nat :=
  let s := (seed * 1103515245 + 12345) % 4294967296
  ((s / 65536) % 32768, s)

/-- The grid contents written by `pw_init_grid`:
`pw_grid[y*12+x] = (x < 12/2) ? 0 : 1`, i.e. cell `idx` is team 0 exactly
when `idx % 12 < 6`. -/
def pw_init_grid_cells : List Nat :=
  (List.range PW_NUM_CELLS).map (fun idx => if idx % 12 < 6 then 0 else 1)

/-- `pw_init_grid`: rebuild the grid and recount the scores from it
(the C loop increments `pw_score1`/`pw_score2` per cell as it writes). -/
def pw_init_grid (st : PwState) : PwState :=
  { st with grid := pw_init_grid_cells,
            score1 := (pw_init_grid_cells.count 0 : Nat),
            score2 := (pw_init_grid_cells.count 1 : Nat) }

/-- `pw_select_random_palette`: one `pw_rand` draw picks one of the 6
palettes. -/
def pw_select_random_palette (st : PwState) : PwState :=
  let r := pw_rand st.seed
  let idx := r.1 % PW_NUM_PALETTES
  let p := pw_color_palettes.getD idx (0, 0, 0, 0)
  { st with seed := r.2,
            colorTeam1 := p.1, colorTeam2 := p.2.1,
            colorBall1 := p.2.2.1, colorBall2 := p.2.2.2 }

/-- The per-ball body of the `pw_init_balls` loop: three `pw_rand` draws
(angle, vx jitter, vy jitter), direction signs from the angle index, and
the per-team initial-direction fixups.  Returns the ball and the seed after
the draws. -/
def pw_make_ball (i : Nat) (base : Int) (seed : Nat) : PwBall × Nat :=
  let r1 := pw_rand seed
  let angle := r1.1 % 8
  let r2 := pw_rand r1.2
  let vx : Int := base + ((r2.1 % 10 : Nat) : Int) - 5
  let r3 := pw_rand r2.2
  let vy : Int := base + ((r3.1 % 10 : Nat) : Int) - 5
  let sx : Int := if angle < 4 then 1 else -1
  let sy : Int := if angle % 4 < 2 then 1 else -1
  let dx0 := vx * sx
  let dy0 := vy * sy
  let dx := if i = 0 ∧ dx0 < 0 then -dx0
            else if i = 1 ∧ dx0 > 0 then -dx0
            else dx0
  let px : Int := if i = 0 then PW_ARENA_W / 4 else PW_ARENA_W * 3 / 4
  ({ x := px, y := PW_ARENA_H / 2, dx := dx, dy := dy0, team := i }, r3.2)

/-- `pw_init_balls`: reseed from uptime (`k_uptime_get_32`), draw a palette,
draw the base speed `40 + pw_rand() % 21`, then build the two balls. -/
def pw_init_balls (uptime : Nat) (st : PwState) : PwState :=
  let s1 := pw_select_random_palette { st with seed := uptime % 4294967296 }
  let rs := pw_rand s1.seed
  let base : Int := 40 + ((rs.1 % 21 : Nat) : Int)
  let mb0 := pw_make_ball 0 base rs.2
  let mb1 := pw_make_ball 1 base mb0.2
  { s1 with seed := mb1.2, baseSpeed := base, balls := [mb0.1, mb1.1] }

/-- The wall-bounce clamp of `pw_step` in one axis: move by `vel / 10`
(C truncating division), clamp to `[lo, hi]` and flip the velocity sign on
contact.  Returns (new position, new velocity). -/
def pw_wall (pos vel lo hi : Int) : Int × Int :=
  let np := pos + Int.tdiv vel 10
  if np < lo then (lo, -vel)
  else if np > hi then (hi, -vel)
  else (np, vel)

/-- The conversion bounce of `pw_step`: `pw_rand() % 3` selects flip-dx,
flip-dy, or flip-both. -/
def pw_conv_vel (r : Nat) (dx dy : Int) : Int × Int :=
  if r = 0 then (-dx, dy)
  else if r = 1 then (dx, -dy)
  else (-dx, -dy)

/-- One iteration of the ball loop of `pw_step`, for ball index `i`:
move and wall-bounce, locate the grid cell, convert it if the opposing
team owns it (flip ownership, transfer one score point, draw a bounce
variant), and store the ball back. -/
def pw_step_ball (st : PwState) (i : Nat) : PwState :=
  match st.balls[i]? with
  | none => st
  | some b =>
      let wx := pw_wall b.x b.dx PW_BALL_RADIUS (PW_ARENA_W - PW_BALL_RADIUS)
      let wy := pw_wall b.y b.dy PW_BALL_RADIUS (PW_ARENA_H - PW_BALL_RADIUS)
      let gx := Int.tdiv wx.1 PW_CELL_SIZE
      let gy := Int.tdiv wy.1 PW_CELL_SIZE
      let moved : PwBall := { x := wx.1, y := wy.1, dx := wx.2, dy := wy.2, team := b.team }
      if 0 ≤ gx ∧ gx < PW_GRID_W ∧ 0 ≤ gy ∧ gy < PW_GRID_H then
        let idx := (gy * PW_GRID_W + gx).toNat
        if st.grid.getD idx 0 ≠ b.team then
          let r := pw_rand st.seed
          let v := pw_conv_vel (r.1 % 3) wx.2 wy.2
          { st with
              grid := st.grid.set idx b.team,
              score1 := if b.team = 0 then st.score1 + 1 else st.score1 - 1,
              score2 := if b.team = 0 then st.score2 - 1 else st.score2 + 1,
              seed := r.2,
              balls := st.balls.set i { moved with dx := v.1, dy := v.2 } }
        else
          { st with balls := st.balls.set i moved }
      else
        { st with balls := st.balls.set i moved }

/-- `pw_step`: guarded by `pw_initialized`, then the loop over both balls. -/
def pw_step (st : PwState) : PwState :=
  if st.initialized then pw_step_ball (pw_step_ball st 0) 1 else st

/-- `pw_reset_game`: guarded by `pw_initialized` and `pw_arena_container`;
stop the timer, re-run `pw_init_grid` and `pw_init_balls`, recolor the
pre-allocated objects (state-irrelevant), restart the timer. -/
def pw_reset_game (uptime : Nat) (st : PwState) : PwState :=
  if st.initialized = false then st
  else if st.arena = false then st
  else
    let s1 := pw_init_grid { st with initialized := false }
    let s2 := pw_init_balls uptime s1
    { s2 with initialized := true }

/-- A concrete Pong Wars state (the state right after a reset at uptime 777)
used to witness the hypotheses of the simulation theorems. -/
def pwWitnessState : PwState :=
  { initialized := true, arena := true,
    grid := pw_init_grid_cells,
    score1 := 54, score2 := 54,
    balls := [{ x := 60, y := 90, dx := 41, dy := 45, team := 0 },
              { x := 180, y := 90, dx := -43, dy := -45, team := 1 }],
    seed := 1, baseSpeed := 46,
    colorTeam1 := 0xFFB5E8, colorTeam2 := 0xB5DEFF,
    colorBall1 := 0xFF4D6D, colorBall2 := 0x2D8CFF,
    cellObjs := List.replicate PW_NUM_CELLS true,
    ballObjs := [true, true] }

/- ==================== Theorems ==================== -/

/- ---------- Helper lemmas (shared) ---------- -/

lemma getD_mem_of_lt {α : Type} (l : List α) (i : Nat) (d : α) (h : i < l.length) :
    l.getD i d ∈ l := by
  rw [List.getD_eq_getElem l d h]
  exact List.getElem_mem h

lemma pw_wall_bounds (pos vel lo hi : Int) (h : lo ≤ hi) :
    lo ≤ (pw_wall pos vel lo hi).1 ∧ (pw_wall pos vel lo hi).1 ≤ hi := by
  simp only [pw_wall]
  split_ifs <;> dsimp only <;> omega

lemma pw_step_ball_score (st : PwState) (i : Nat) :
    (pw_step_ball st i).score1 + (pw_step_ball st i).score2 = st.score1 + st.score2 := by
  unfold pw_step_ball
  cases hb : st.balls[i]? with
  | none => rfl
  | some b =>
    dsimp only
    split_ifs <;> dsimp only <;> omega

lemma pw_init_balls_score1 (u : Nat) (st : PwState) :
    (pw_init_balls u st).score1 = st.score1 := by
  simp only [pw_init_balls, pw_select_random_palette]

lemma pw_init_balls_score2 (u : Nat) (st : PwState) :
    (pw_init_balls u st).score2 = st.score2 := by
  simp only [pw_init_balls, pw_select_random_palette]

lemma pw_init_grid_score1 (st : PwState) : (pw_init_grid st).score1 = 54 := by
  have h : (pw_init_grid st).score1 = ((pw_init_grid_cells.count 0 : Nat) : Int) := rfl
  rw [h]
  decide

lemma pw_init_grid_score2 (st : PwState) : (pw_init_grid st).score2 = 54 := by
  have h : (pw_init_grid st).score2 = ((pw_init_grid_cells.count 1 : Nat) : Int) := rfl
  rw [h]
  decide

/- ---------- C1 ---------- -/

/-- C1: pw_score1 + pw_score2 always equals the 108 grid cells:
`pw_init_grid` establishes the invariant, `pw_step` (each tick, cell
conversions included) preserves the sum exactly, and `pw_reset_game`
preserves the invariant. -/
theorem C1_score_invariant :
    (∀ st : PwState, (pw_init_grid st).score1 + (pw_init_grid st).score2 = 108) ∧
    (∀ st : PwState, (pw_step st).score1 + (pw_step st).score2 = st.score1 + st.score2) ∧
    (∀ (u : Nat) (st : PwState), st.score1 + st.score2 = 108 →
       (pw_reset_game u st).score1 + (pw_reset_game u st).score2 = 108) := by
  refine ⟨fun st => ?_, fun st => ?_, fun u st h => ?_⟩
  · rw [pw_init_grid_score1, pw_init_grid_score2]
    decide
  · unfold pw_step
    split_ifs
    · rw [pw_step_ball_score, pw_step_ball_score]
    · rfl
  · unfold pw_reset_game
    split_ifs
    · exact h
    · exact h
    · dsimp only
      rw [pw_init_balls_score1, pw_init_balls_score2, pw_init_grid_score1, pw_init_grid_score2]
      decide

/-- Witness for C1's reset part at a concrete state satisfying the
invariant. -/
theorem C1_score_invariant_witness :
    pwWitnessState.score1 + pwWitnessState.score2 = 108 ∧
    (pw_reset_game 777 pwWitnessState).score1 + (pw_reset_game 777 pwWitnessState).score2 = 108 :=
  ⟨by decide, C1_score_invariant.2.2 777 pwWitnessState (by decide)⟩

/- ---------- C2 ---------- -/

/-- C2: after `update_layer_slide_display`, the active layer's slot index
`L - layer_slide_window_start` lies in [2,6] for every layer L ≥ 0 and
every prior window start; the window start moves only when the slot index
was outside [2,6] and then exactly to the violated zone boundary (slot 2
when entering from the left, slot 6 from the right, the minimum shift);
and slots whose layer number is negative render empty (empty text,
transparent). -/
theorem C2_layer_dial :
    (∀ (layer : Int) (s : SlideState), 0 ≤ layer →
       SLIDE_LARGE_ZONE_START ≤ layer - (update_layer_slide_display layer s).windowStart ∧
       layer - (update_layer_slide_display layer s).windowStart ≤ SLIDE_LARGE_ZONE_END) ∧
    (∀ (layer : Int) (s : SlideState),
       (update_layer_slide_display layer s).windowStart ≠ s.windowStart →
         (layer - s.windowStart < SLIDE_LARGE_ZONE_START ∧
            layer - (update_layer_slide_display layer s).windowStart = SLIDE_LARGE_ZONE_START) ∨
         (layer - s.windowStart > SLIDE_LARGE_ZONE_END ∧
            layer - (update_layer_slide_display layer s).windowStart = SLIDE_LARGE_ZONE_END)) ∧
    (∀ (layer : Int) (s : SlideState),
       SLIDE_LARGE_ZONE_START ≤ layer - s.windowStart →
       layer - s.windowStart ≤ SLIDE_LARGE_ZONE_END →
       (update_layer_slide_display layer s).windowStart = s.windowStart) ∧
    (∀ (num layer : Int) (slot : Nat), num < 0 →
       slide_slot_text num = "" ∧ slide_slot_opa_of num layer slot = LV_OPA_TRANSP) := by
  refine ⟨fun layer s _ => ?_, fun layer s h => ?_, fun layer s h1 h2 => ?_,
          fun num layer slot h => ?_⟩
  · unfold update_layer_slide_display slide_new_window_start SLIDE_LARGE_ZONE_START SLIDE_LARGE_ZONE_END at *
    dsimp only
    split_ifs <;> omega
  · unfold update_layer_slide_display slide_new_window_start SLIDE_LARGE_ZONE_START SLIDE_LARGE_ZONE_END at *
    dsimp only at h ⊢
    split_ifs at h ⊢ <;> omega
  · unfold update_layer_slide_display slide_new_window_start SLIDE_LARGE_ZONE_START SLIDE_LARGE_ZONE_END at *
    dsimp only
    split_ifs <;> omega
  · constructor
    · unfold slide_slot_text
      rw [if_neg (by omega)]
    · unfold slide_slot_opa_of
      rw [if_pos h]

/-- Witness for C2 at layer 9, window start 0 (a scroll to the right
boundary), and at the negative slot number -2. -/
theorem C2_layer_dial_witness :
    (SLIDE_LARGE_ZONE_START ≤ (9 : Int) - (update_layer_slide_display 9 ⟨0, 7⟩).windowStart ∧
       (9 : Int) - (update_layer_slide_display 9 ⟨0, 7⟩).windowStart ≤ SLIDE_LARGE_ZONE_END) ∧
    (update_layer_slide_display 4 ⟨0, 7⟩).windowStart = (0 : Int) ∧
    (slide_slot_text (-2) = "" ∧ slide_slot_opa_of (-2) 0 0 = LV_OPA_TRANSP) :=
  ⟨C2_layer_dial.1 9 ⟨0, 7⟩ (by decide),
   C2_layer_dial.2.2.1 4 ⟨0, 7⟩ (by decide) (by decide),
   C2_layer_dial.2.2.2 (-2) 0 0 (by decide)⟩

/- ---------- C3 ---------- -/

/-- C3: the swipe switch realizes exactly the spec's transition table:
Main goes down/up/right/left to DisplaySettings/KeyboardSelect/
SystemSettings/PongWars, each destination's single return direction leads
back to Main, KeyboardSelect's left/right keep the screen and
decrement/increment the channel filter, and every other (screen,
direction) pair is a no-op. -/
theorem C3_transition_table :
    (∀ ch, swipe_transition Screen.main Dir.down ch = (Screen.displaySettings, ch)) ∧
    (∀ ch, swipe_transition Screen.main Dir.up ch = (Screen.keyboardSelect, ch)) ∧
    (∀ ch, swipe_transition Screen.main Dir.right ch = (Screen.systemSettings, ch)) ∧
    (∀ ch, swipe_transition Screen.main Dir.left ch = (Screen.pongWars, ch)) ∧
    (∀ ch, swipe_transition Screen.displaySettings Dir.up ch = (Screen.main, ch)) ∧
    (∀ ch, swipe_transition Screen.keyboardSelect Dir.down ch = (Screen.main, ch)) ∧
    (∀ ch, swipe_transition Screen.systemSettings Dir.left ch = (Screen.main, ch)) ∧
    (∀ ch, swipe_transition Screen.pongWars Dir.right ch = (Screen.main, ch)) ∧
    (∀ ch, swipe_transition Screen.keyboardSelect Dir.left ch =
        (Screen.keyboardSelect, ks_channel_change (ks_channel_decrement ch))) ∧
    (∀ ch, swipe_transition Screen.keyboardSelect Dir.right ch =
        (Screen.keyboardSelect, ks_channel_change (ks_channel_increment ch))) ∧
    (∀ ch, swipe_transition Screen.displaySettings Dir.down ch = (Screen.displaySettings, ch)) ∧
    (∀ ch, swipe_transition Screen.displaySettings Dir.left ch = (Screen.displaySettings, ch)) ∧
    (∀ ch, swipe_transition Screen.displaySettings Dir.right ch = (Screen.displaySettings, ch)) ∧
    (∀ ch, swipe_transition Screen.systemSettings Dir.up ch = (Screen.systemSettings, ch)) ∧
    (∀ ch, swipe_transition Screen.systemSettings Dir.down ch = (Screen.systemSettings, ch)) ∧
    (∀ ch, swipe_transition Screen.systemSettings Dir.right ch = (Screen.systemSettings, ch)) ∧
    (∀ ch, swipe_transition Screen.keyboardSelect Dir.up ch = (Screen.keyboardSelect, ch)) ∧
    (∀ ch, swipe_transition Screen.pongWars Dir.up ch = (Screen.pongWars, ch)) ∧
    (∀ ch, swipe_transition Screen.pongWars Dir.down ch = (Screen.pongWars, ch)) ∧
    (∀ ch, swipe_transition Screen.pongWars Dir.left ch = (Screen.pongWars, ch)) :=
  ⟨fun _ => rfl, fun _ => rfl, fun _ => rfl, fun _ => rfl, fun _ => rfl,
   fun _ => rfl, fun _ => rfl, fun _ => rfl, fun _ => rfl, fun _ => rfl,
   fun _ => rfl, fun _ => rfl, fun _ => rfl, fun _ => rfl, fun _ => rfl,
   fun _ => rfl, fun _ => rfl, fun _ => rfl, fun _ => rfl, fun _ => rfl⟩

/- ---------- C4 ---------- -/

/-- C4: gesture-mailbox discipline.  A gesture arriving while the pending
cell is non-empty is discarded with the pending value unchanged; every
consumer tick leaves the pending cell empty (it clears it before acting,
so no gesture can be processed twice and a second tick with no new arrival
does nothing); and a gesture read while `ui_interaction_active` or
`transition_in_progress` is set is discarded — the tick only clears the
cell, changing neither screen nor channel, never deferring the gesture. -/
theorem C4_gesture_mailbox :
    (∀ (d : Dir) (s : SwState), s.pending ≠ none → swipe_gesture_listener d s = s) ∧
    (∀ s : SwState, (swipe_process_timer_cb s).pending = none) ∧
    (∀ s : SwState, s.uiActive = true ∨ s.transitionBusy = true →
       swipe_process_timer_cb s = { s with pending := none }) ∧
    (∀ s : SwState, swipe_process_timer_cb (swipe_process_timer_cb s) = swipe_process_timer_cb s) := by
  have hpend : ∀ s : SwState, (swipe_process_timer_cb s).pending = none := by
    intro s
    unfold swipe_process_timer_cb
    cases hp : s.pending with
    | none => exact hp
    | some d => dsimp only; split_ifs <;> rfl
  refine ⟨fun d s h => ?_, hpend, fun s h => ?_, fun s => ?_⟩
  · unfold swipe_gesture_listener
    rw [if_pos h]
  · unfold swipe_process_timer_cb
    cases hp : s.pending with
    | none =>
      show s = { s with pending := none }
      cases s
      simp_all
    | some d =>
      dsimp only
      rcases h with h | h
      · rw [if_pos h]
      · split_ifs <;> rfl
  · have h2 := hpend s
    conv_lhs => rw [swipe_process_timer_cb]
    rw [h2]

/-- Witness for C4 at concrete states: a second gesture is dropped while
one is pending, and a tick during an active UI interaction only clears the
cell. -/
theorem C4_gesture_mailbox_witness :
    swipe_gesture_listener Dir.up ⟨some Dir.down, false, false, Screen.main, 10⟩ =
      ⟨some Dir.down, false, false, Screen.main, 10⟩ ∧
    swipe_process_timer_cb ⟨some Dir.down, true, false, Screen.main, 10⟩ =
      ⟨none, true, false, Screen.main, 10⟩ :=
  ⟨C4_gesture_mailbox.1 Dir.up _ (by decide),
   C4_gesture_mailbox.2.2.1 ⟨some Dir.down, true, false, Screen.main, 10⟩ (Or.inl rfl)⟩

/- ---------- C5 ---------- -/

/-- C5 counterexample: with stored `active_battery_count = 2`, a call with
all four values 0 computes count 0, which differs from 2, yet
`reposition_battery_widgets` is NOT invoked (the code guards the call with
`count > 0`), refuting "invoked exactly on those calls where the computed
count differs from the stored count". -/
theorem C5_counterexample :
    battery_active_count 0 0 0 0 = 0 ∧
    battery_active_count 0 0 0 0 ≠ (2 : Int) ∧
    (display_update_keyboard_battery_4 0 0 0 0 ⟨[10, 20, 0, 0], 2⟩).2 = none := by
  refine ⟨by decide, by decide, by decide⟩

/-- C5 amended: the layout switch maps counts 1,2,3,4 to bar widths
165,110,70,52 with the fixed x-offset tables and name-label sets
{}, {L,R}, {L,R,Aux}, {L,R,A1,A2}; and `reposition_battery_widgets` is
invoked exactly on those calls of `display_update_keyboard_battery_4` whose
computed active count differs from the stored count AND is positive — in
particular never on a value-only update with unchanged count. -/
theorem C5_battery_layout :
    (reposition_bar_width 1 = 165 ∧ reposition_bar_width 2 = 110 ∧
       reposition_bar_width 3 = 70 ∧ reposition_bar_width 4 = 52) ∧
    (reposition_x_offsets 1 = kb_x_offsets_1 ∧ reposition_x_offsets 2 = kb_x_offsets_2 ∧
       reposition_x_offsets 3 = kb_x_offsets_3 ∧ reposition_x_offsets 4 = kb_x_offsets_4) ∧
    ((List.range 4).map (reposition_slot_name 1) = ["", "", "", ""] ∧
       (List.range 4).map (reposition_slot_name 2) = ["L", "R", "", ""] ∧
       (List.range 4).map (reposition_slot_name 3) = ["L", "R", "Aux", ""] ∧
       (List.range 4).map (reposition_slot_name 4) = ["L", "R", "A1", "A2"]) ∧
    (∀ (b0 b1 b2 b3 : Int) (s : BatteryState),
       (display_update_keyboard_battery_4 b0 b1 b2 b3 s).2 =
         (if battery_active_count b0 b1 b2 b3 ≠ s.activeCount ∧
             0 < battery_active_count b0 b1 b2 b3
          then some (battery_active_count b0 b1 b2 b3) else none)) ∧
    (∀ (b0 b1 b2 b3 : Int) (s : BatteryState),
       battery_active_count b0 b1 b2 b3 = s.activeCount →
       (display_update_keyboard_battery_4 b0 b1 b2 b3 s).2 = none) := by
  refine ⟨⟨by decide, by decide, by decide, by decide⟩,
          ⟨by decide, by decide, by decide, by decide⟩,
          ⟨by decide, by decide, by decide, by decide⟩,
          fun b0 b1 b2 b3 s => ?_, fun b0 b1 b2 b3 s h => ?_⟩
  · unfold display_update_keyboard_battery_4
    dsimp only
    split_ifs with h1 h2 h3 h3 <;> first | rfl | (exfalso; omega)
  · unfold display_update_keyboard_battery_4
    dsimp only
    rw [if_neg (by omega)]

/-- Witness for C5's amended claim at a concrete count-change (2 → 3) and a
concrete value-only update. -/
theorem C5_battery_layout_witness :
    (display_update_keyboard_battery_4 10 20 30 0 ⟨[10, 20, 0, 0], 2⟩).2 =
      (if battery_active_count 10 20 30 0 ≠ (2 : Int) ∧ 0 < battery_active_count 10 20 30 0
       then some (battery_active_count 10 20 30 0) else none) ∧
    (display_update_keyboard_battery_4 11 21 0 0 ⟨[10, 20, 0, 0], 2⟩).2 = none :=
  ⟨C5_battery_layout.2.2.2.1 10 20 30 0 ⟨[10, 20, 0, 0], 2⟩,
   C5_battery_layout.2.2.2.2 11 21 0 0 ⟨[10, 20, 0, 0], 2⟩ (by decide)⟩

/- ---------- C6 ---------- -/

/-- C6: the x100 integer signal-rate formatter renders every negative
payload (such as the -1 sentinel) as "-.--Hz", renders payload 1234 as
"12.3Hz", and in general renders a non-negative payload as whole part
`payload / 100` and one fractional digit `(payload % 100) / 10`. -/
theorem C6_rate_format :
    (∀ x : Int, x < 0 → format_rate_x100 x = "-.--Hz") ∧
    format_rate_x100 1234 = "12.3Hz" ∧
    (∀ x : Int, 0 ≤ x →
       format_rate_x100 x =
         toString (Int.tdiv x 100) ++ "." ++ toString (Int.tdiv (x % 100) 10) ++ "Hz") := by
  refine ⟨fun x h => ?_, by decide, fun x h => ?_⟩
  · unfold format_rate_x100
    rw [if_pos h]
  · unfold format_rate_x100
    rw [if_neg (by omega)]

/-- Witness for C6 at the spec's two scenario payloads. -/
theorem C6_rate_format_witness :
    format_rate_x100 (-1) = "-.--Hz" ∧
    format_rate_x100 1234 =
      toString (Int.tdiv 1234 100) ++ "." ++ toString (Int.tdiv ((1234 : Int) % 100) 10) ++ "Hz" :=
  ⟨C6_rate_format.1 (-1) (by decide), C6_rate_format.2.2 1234 (by decide)⟩

/- ---------- C8 ---------- -/

/-- C8 counterexample: for logical brightness 80, `set_pwm_brightness`
passes 20 to the LED driver, not 80 — the polarity inversion happens in
this engine function, not below it, refuting "the value passed to the
driver equals the logical (non-inverted) percentage". -/
theorem C8_counterexample :
    set_pwm_brightness true 80 = some 20 ∧ (20 : Nat) ≠ 80 := by
  refine ⟨by decide, by decide⟩

/-- C8 amended: the engine itself performs the polarity inversion.  For
every logical percentage b in 1..100 the value handed to the LED driver is
`100 - b` (b = 0 is first clamped to 1, giving 99), and when the backlight
device is not ready no value is passed at all. -/
theorem C8_engine_inverts :
    (∀ b : Nat, 1 ≤ b → b ≤ 100 → set_pwm_brightness true b = some (100 - b)) ∧
    set_pwm_brightness true 0 = some 99 ∧
    (∀ b : Nat, set_pwm_brightness false b = none) := by
  refine ⟨fun b h1 h2 => ?_, by decide, fun b => rfl⟩
  unfold set_pwm_brightness
  rw [if_neg (by decide)]
  rw [if_neg (by omega)]
  dsimp only
  congr 1
  omega

/-- Witness for C8's amended claim at brightness 80. -/
theorem C8_engine_inverts_witness :
    set_pwm_brightness true 80 = some (100 - 80) :=
  C8_engine_inverts.1 80 (by decide) (by decide)

/- ---------- C9 ---------- -/

/-- C9 counterexample: `display_update_layer 300` from cached layer 5
leaves the state completely unchanged — the out-of-range value is neither
clamped (the spec's clamp would give 255) nor replaced by any sentinel
display value; the call is simply ignored. -/
theorem C9_counterexample :
    display_update_layer 300 ⟨5⟩ = ⟨5⟩ ∧
    clamp_layer_spec 300 = 255 ∧
    (display_update_layer 300 ⟨5⟩).activeLayer ≠ clamp_layer_spec 300 := by
  refine ⟨by decide, by decide, by decide⟩

/-- C9 amended: a layer number outside 0..255 is rejected — the call
returns immediately and the cached layer (hence the display) is unchanged,
while an in-range layer is cached; a negative, out-of-range (> 999.9) or
NaN rate is replaced with the sentinel "-.--Hz".  Both entry points are
total functions (no crash). -/
theorem C9_invalid_inputs :
    (∀ (layer : Int) (s : LayerState), layer < 0 ∨ layer > 255 →
       display_update_layer layer s = s) ∧
    (∀ (layer : Int) (s : LayerState), 0 ≤ layer → layer ≤ 255 →
       (display_update_layer layer s).activeLayer = layer) ∧
    display_update_signal_rate_text none = "-.--Hz" ∧
    (∀ r : ℚ, r < 0 → display_update_signal_rate_text (some r) = "-.--Hz") ∧
    (∀ r : ℚ, r > 9999 / 10 → display_update_signal_rate_text (some r) = "-.--Hz") := by
  refine ⟨fun layer s h => ?_, fun layer s h1 h2 => ?_, rfl, fun r h => ?_, fun r h => ?_⟩
  · unfold display_update_layer
    rw [if_pos h]
  · unfold display_update_layer
    rw [if_neg (by omega)]
  · unfold display_update_signal_rate_text
    dsimp only
    rw [if_pos h]
  · unfold display_update_signal_rate_text
    dsimp only
    rw [if_neg (not_lt.mpr (by linarith)), if_pos h]

/-- Witness for C9's amended claim: layer 300 is ignored, layer 7 is
cached, rate -1 and rate 5000 give the sentinel. -/
theorem C9_invalid_inputs_witness :
    display_update_layer 300 ⟨5⟩ = ⟨5⟩ ∧
    (display_update_layer 7 ⟨5⟩).activeLayer = 7 ∧
    display_update_signal_rate_text (some (-1)) = "-.--Hz" ∧
    display_update_signal_rate_text (some 5000) = "-.--Hz" :=
  ⟨C9_invalid_inputs.1 300 ⟨5⟩ (Or.inr (by norm_num)),
   C9_invalid_inputs.2.1 7 ⟨5⟩ (by norm_num) (by norm_num),
   C9_invalid_inputs.2.2.2.1 (-1) (by norm_num),
   C9_invalid_inputs.2.2.2.2 5000 (by norm_num)⟩

/- ---------- C7 ---------- -/

lemma pw_select_random_palette_colors_mem (st : PwState) :
    ((pw_select_random_palette st).colorTeam1, (pw_select_random_palette st).colorTeam2,
     (pw_select_random_palette st).colorBall1, (pw_select_random_palette st).colorBall2) ∈
      pw_color_palettes := by
  unfold pw_select_random_palette
  dsimp only
  exact getD_mem_of_lt _ _ _ (Nat.mod_lt _ (by decide))

lemma pw_init_balls_colors_mem (u : Nat) (st : PwState) :
    ((pw_init_balls u st).colorTeam1, (pw_init_balls u st).colorTeam2,
     (pw_init_balls u st).colorBall1, (pw_init_balls u st).colorBall2) ∈ pw_color_palettes := by
  simp only [pw_init_balls]
  exact pw_select_random_palette_colors_mem _

lemma pw_init_balls_baseSpeed (u : Nat) (st : PwState) :
    40 ≤ (pw_init_balls u st).baseSpeed ∧ (pw_init_balls u st).baseSpeed ≤ 60 := by
  simp only [pw_init_balls]
  omega

lemma pw_init_balls_grid (u : Nat) (st : PwState) :
    (pw_init_balls u st).grid = st.grid := by
  simp only [pw_init_balls, pw_select_random_palette]

lemma pw_init_balls_cellObjs (u : Nat) (st : PwState) :
    (pw_init_balls u st).cellObjs = st.cellObjs := by
  simp only [pw_init_balls, pw_select_random_palette]

lemma pw_init_balls_ballObjs (u : Nat) (st : PwState) :
    (pw_init_balls u st).ballObjs = st.ballObjs := by
  simp only [pw_init_balls, pw_select_random_palette]

/-- C7: from every initialized state (arena present), `pw_reset_game`
produces a valid initial state: the grid is exactly the half/half split
(cell i is team 0 iff its column i % 12 is one of the left 6), the scores
are 54/54, the freshly drawn base speed lies in [40,60] before per-ball
jitter, the four current colors are one entry of the fixed 6-palette
table, and the pre-allocated cell/ball objects are untouched (no
allocation or free), the state ending initialized again. -/
theorem C7_reset_valid (u : Nat) (st : PwState)
    (h1 : st.initialized = true) (h2 : st.arena = true) :
    (pw_reset_game u st).grid = pw_init_grid_cells ∧
    (∀ i : Nat, i < PW_NUM_CELLS →
       pw_init_grid_cells.getD i 2 = if i % 12 < 6 then 0 else 1) ∧
    (pw_reset_game u st).score1 = 54 ∧
    (pw_reset_game u st).score2 = 54 ∧
    (40 ≤ (pw_reset_game u st).baseSpeed ∧ (pw_reset_game u st).baseSpeed ≤ 60) ∧
    ((pw_reset_game u st).colorTeam1, (pw_reset_game u st).colorTeam2,
     (pw_reset_game u st).colorBall1, (pw_reset_game u st).colorBall2) ∈ pw_color_palettes ∧
    (pw_reset_game u st).cellObjs = st.cellObjs ∧
    (pw_reset_game u st).ballObjs = st.ballObjs ∧
    (pw_reset_game u st).initialized = true := by
  have hr : pw_reset_game u st =
      { pw_init_balls u (pw_init_grid { st with initialized := false }) with
          initialized := true } := by
    unfold pw_reset_game
    rw [if_neg (by simp [h1]), if_neg (by simp [h2])]
  refine ⟨?_, by decide, ?_, ?_, ?_, ?_, ?_, ?_, ?_⟩
  · rw [hr]
    dsimp only
    rw [pw_init_balls_grid]
    rfl
  · rw [hr]
    dsimp only
    rw [pw_init_balls_score1, pw_init_grid_score1]
  · rw [hr]
    dsimp only
    rw [pw_init_balls_score2, pw_init_grid_score2]
  · rw [hr]
    dsimp only
    exact pw_init_balls_baseSpeed u _
  · rw [hr]
    dsimp only
    exact pw_init_balls_colors_mem u _
  · rw [hr]
    dsimp only
    rw [pw_init_balls_cellObjs]
    rfl
  · rw [hr]
    dsimp only
    rw [pw_init_balls_ballObjs]
    rfl
  · rw [hr]

/-- Witness for C7 at uptime 777 from the concrete initialized state. -/
theorem C7_reset_valid_witness :
    (pw_reset_game 777 pwWitnessState).grid = pw_init_grid_cells ∧
    (pw_reset_game 777 pwWitnessState).score1 = 54 ∧
    (pw_reset_game 777 pwWitnessState).score2 = 54 ∧
    (40 ≤ (pw_reset_game 777 pwWitnessState).baseSpeed ∧
       (pw_reset_game 777 pwWitnessState).baseSpeed ≤ 60) ∧
    ((pw_reset_game 777 pwWitnessState).colorTeam1, (pw_reset_game 777 pwWitnessState).colorTeam2,
     (pw_reset_game 777 pwWitnessState).colorBall1, (pw_reset_game 777 pwWitnessState).colorBall2)
      ∈ pw_color_palettes ∧
    (pw_reset_game 777 pwWitnessState).cellObjs = pwWitnessState.cellObjs := by
  have h := C7_reset_valid 777 pwWitnessState rfl rfl
  exact ⟨h.1, h.2.2.1, h.2.2.2.1, h.2.2.2.2.1, h.2.2.2.2.2.1, h.2.2.2.2.2.2.1⟩

/- ---------- C10 ---------- -/

lemma pw_step_ball_updates (st : PwState) (i : Nat) (b : PwBall)
    (hb : st.balls[i]? = some b) :
    ∃ nb : PwBall,
      (pw_step_ball st i).balls = st.balls.set i nb ∧
      PW_BALL_RADIUS ≤ nb.x ∧ nb.x ≤ PW_ARENA_W - PW_BALL_RADIUS ∧
      PW_BALL_RADIUS ≤ nb.y ∧ nb.y ≤ PW_ARENA_H - PW_BALL_RADIUS := by
  have hx := pw_wall_bounds b.x b.dx PW_BALL_RADIUS (PW_ARENA_W - PW_BALL_RADIUS) (by decide)
  have hy := pw_wall_bounds b.y b.dy PW_BALL_RADIUS (PW_ARENA_H - PW_BALL_RADIUS) (by decide)
  unfold pw_step_ball
  rw [hb]
  dsimp only
  split_ifs
  all_goals exact ⟨_, rfl, hx.1, hx.2, hy.1, hy.2⟩

/-- C10: every call of `pw_step` from an initialized two-ball state whose
balls lie inside the arena leaves every ball wall-clamped strictly inside
the arena: `PW_BALL_RADIUS ≤ x ≤ PW_ARENA_W - PW_BALL_RADIUS` and likewise
for y. -/
theorem C10_ball_bounds (st : PwState)
    (h1 : st.initialized = true) (h2 : st.balls.length = 2)
    (_h3 : ∀ b ∈ st.balls, 0 ≤ b.x ∧ b.x ≤ PW_ARENA_W ∧ 0 ≤ b.y ∧ b.y ≤ PW_ARENA_H) :
    ∀ b ∈ (pw_step st).balls,
      PW_BALL_RADIUS ≤ b.x ∧ b.x ≤ PW_ARENA_W - PW_BALL_RADIUS ∧
      PW_BALL_RADIUS ≤ b.y ∧ b.y ≤ PW_ARENA_H - PW_BALL_RADIUS := by
  obtain ⟨b0, b1, hbs⟩ := List.length_eq_two.mp h2
  have hb0 : st.balls[0]? = some b0 := by rw [hbs]; rfl
  obtain ⟨nb0, hset0, hnb0⟩ := pw_step_ball_updates st 0 b0 hb0
  have hb1 : (pw_step_ball st 0).balls[1]? = some b1 := by
    rw [hset0, hbs]
    rfl
  obtain ⟨nb1, hset1, hnb1⟩ := pw_step_ball_updates (pw_step_ball st 0) 1 b1 hb1
  have hresult : (pw_step st).balls = [nb0, nb1] := by
    unfold pw_step
    rw [if_pos h1, hset1, hset0, hbs]
    rfl
  rw [hresult]
  intro b hb
  rcases List.mem_pair.mp hb with h | h
  · rw [h]
    exact hnb0
  · rw [h]
    exact hnb1

/-- Witness for C10: the bounds hold for the first ball of the concrete
post-reset state after one tick. -/
theorem C10_ball_bounds_witness :
    PW_BALL_RADIUS ≤ ((pw_step pwWitnessState).balls.getD 0 ⟨0, 0, 0, 0, 0⟩).x ∧
    ((pw_step pwWitnessState).balls.getD 0 ⟨0, 0, 0, 0, 0⟩).x ≤ PW_ARENA_W - PW_BALL_RADIUS ∧
    PW_BALL_RADIUS ≤ ((pw_step pwWitnessState).balls.getD 0 ⟨0, 0, 0, 0, 0⟩).y ∧
    ((pw_step pwWitnessState).balls.getD 0 ⟨0, 0, 0, 0, 0⟩).y ≤ PW_ARENA_H - PW_BALL_RADIUS :=
  C10_ball_bounds pwWitnessState rfl (by decide) (by decide)
    ((pw_step pwWitnessState).balls.getD 0 ⟨0, 0, 0, 0, 0⟩) (by decide)
